import Mathlib

/-
Verification of the Chicago crime dashboard (main.py and hotspots.py).

The development shallowly embeds the two batch pipelines:

- hotspots.py: loading of neighborhood boundary polygons and crime points,
  the per-polygon containment count (line 62: sum of a boolean within-series)
  and the density column (line 66: count / area * 1e7), and the control flow
  of create_chloropleth_map (early return before any file write when a
  loader returns None).

- main.py: the SQL null-coordinate filter of load_data (WHERE Latitude IS
  NOT NULL AND Longitude IS NOT NULL), the derived columns (day_name, hour,
  season), the year-keyed cluster and heatmap layers of create_layers
  (range(2020, 2025)), and the aggregation steps of create_analytics_html
  (value_counts with reindex for weekdays, value_counts with sort_index and
  a 24-label relabel for hours).

Geometry is modelled with rational coordinates. Polygons are modelled as
axis-aligned rectangles; the shapely predicate point.within(polygon) is
strict interior containment, which on a rectangle is the open box given by
strict coordinate inequalities, and polygon area on a rectangle is width
times height. Floating point arithmetic is modelled by exact rationals.
Network and database effects are modelled by explicit outcome values: a
fetch is a stream of responses indexed by attempt number, and a database
read is an Except value; the loader in hotspots.py converts an error to a
None result plus a log line, while the loader in main.py has no handler
and propagates the error.
-/

structure Point where
  x : ℚ
  y : ℚ
deriving DecidableEq, Repr

structure Rect where
  xmin : ℚ
  xmax : ℚ
  ymin : ℚ
  ymax : ℚ
deriving DecidableEq, Repr

/-- Shapely strict containment of a point in a rectangle polygon: the point
lies in the open interior, boundary points excluded. -/
def Point.within (p : Point) (g : Rect) : Bool :=
  g.xmin < p.x && p.x < g.xmax && g.ymin < p.y && p.y < g.ymax

/-- Area of a rectangle polygon (geopandas geometry.area on a rectangle). -/
def Rect.area (g : Rect) : ℚ :=
  (g.xmax - g.xmin) * (g.ymax - g.ymin)

/-- hotspots.py line 62: crime_count = sum(crime_data.geometry.within(geometry)),
the sum of the boolean within-series over all crime points. -/
def crime_count (pts : List Point) (g : Rect) : Nat :=
  (pts.map (fun p => (p.within g).toNat)).sum

/-- hotspots.py lines 60-63: the crime_count column, one count per polygon,
each computed independently by the loop over neighborhoods. -/
def crime_counts (polys : List Rect) (pts : List Point) : List Nat :=
  polys.map (fun g => crime_count pts g)

/-- hotspots.py line 66: the crime_density column, computed elementwise from
the aligned crime_count and area columns as count / area * 1e7, with no
guard on a zero area (rational division by zero yields zero here, where the
float pipeline would produce inf or nan). -/
def crime_densities (polys : List Rect) (pts : List Point) : List ℚ :=
  (polys.zip (crime_counts polys pts)).map
    (fun gc => (gc.2 : ℚ) / gc.1.area * 10000000)

/-- main.py lines 30-33: the season lambda applied to the month column. -/
def season (x : Nat) : String :=
  if x ∈ [12, 1, 2] then "Winter"
  else if x ∈ [3, 4, 5] then "Spring"
  else if x ∈ [6, 7, 8] then "Summer"
  else "Fall"

/-- Timestamp model: day index since the epoch (day 0 a Thursday), hour of
day and calendar month, the three components the pipelines read. -/
structure DateT where
  days : Nat
  hourOfDay : Nat
  month : Nat
deriving DecidableEq, Repr

/-- The fixed Monday-first weekday order of main.py lines 93-95. -/
def week_order : List String :=
  ["Monday", "Tuesday", "Wednesday", "Thursday", "Friday", "Saturday", "Sunday"]

/-- pandas Date.dt.day_name on the day index: day 0 of the epoch is a
Thursday, index 3 in the Monday-first week. -/
def day_name_of (d : DateT) : String :=
  week_order.getD ((d.days + 3) % 7) ""

/-- A raw row of the homicides table as selected by main.py load_data,
before the WHERE clause: coordinates may be NULL. -/
structure RowM where
  Latitude : Option ℚ
  Longitude : Option ℚ
  Date : DateT
  Year : Int
  CaseNumber : String
  Description : String
  LocationDescription : String
deriving DecidableEq, Repr

/-- An incident record returned by main.py load_data, with the derived
columns of lines 27-33 attached. -/
structure MIncident where
  Latitude : ℚ
  Longitude : ℚ
  Date : DateT
  Year : Int
  CaseNumber : String
  Description : String
  LocationDescription : String
  day_name : String
  hour : Nat
  seasonName : String
deriving DecidableEq, Repr

/-- The WHERE clause of main.py lines 17-18: both coordinates non-NULL. -/
def coords_not_null (r : RowM) : Bool :=
  r.Latitude.isSome && r.Longitude.isSome

/-- main.py lines 27-33: attach the derived columns to a surviving row. -/
def derive_row (r : RowM) : MIncident :=
  { Latitude := r.Latitude.getD 0
    Longitude := r.Longitude.getD 0
    Date := r.Date
    Year := r.Year
    CaseNumber := r.CaseNumber
    Description := r.Description
    LocationDescription := r.LocationDescription
    day_name := day_name_of r.Date
    hour := r.Date.hourOfDay % 24
    seasonName := season r.Date.month }

/-- main.py load_data on the rows of the homicides table: filter out NULL
coordinates, then attach derived columns. -/
def load_data (rows : List RowM) : List MIncident :=
  (rows.filter coords_not_null).map derive_row

/-- main.py load_data seen from its caller: the function body has no
try/except, so a database failure propagates unchanged. -/
def load_data_db (db : Except String (List RowM)) : Except String (List MIncident) :=
  db.map load_data

/-- main.py lines 93-95: value_counts on the day_name column followed by
reindex on the fixed Monday-first list; a weekday absent from the data has
no key in value_counts, so reindex yields a missing value (NaN) for it. -/
def dow_reindex (names : List String) : List (String × Option Nat) :=
  week_order.map (fun d =>
    (d, if names.contains d then some (names.countP (fun n => n == d)) else none))

/-- A folium FeatureGroup of main.py create_layers: a name and the incidents
added to it. -/
structure YearLayer where
  layerName : String
  incidents : List MIncident
deriving DecidableEq, Repr

/-- main.py line 45: range(2020, 2025). -/
def years_range : List Int := (List.range 5).map (fun k => 2020 + (k : Int))

/-- main.py lines 40-80: one cluster layer and one heatmap layer per year in
range(2020, 2025), each holding the incidents whose Year equals that year;
the layers are created and added to the map unconditionally, also when the
data collection is empty. -/
def create_layers (data : List MIncident) : List YearLayer × List YearLayer :=
  (years_range.map (fun y =>
     { layerName := "cluster_year_" ++ toString y
       incidents := data.filter (fun i => i.Year == y) }),
   years_range.map (fun y =>
     { layerName := "heatmap_year_" ++ toString y
       incidents := data.filter (fun i => i.Year == y) }))

/-- main.py line 132: the 24 twelve-hour labels, 12 AM through 11 PM. -/
def hour_labels : List String :=
  (List.range 24).map (fun h =>
    toString (if h % 12 = 0 then 12 else h % 12) ++ " " ++ (if h < 12 then "AM" else "PM"))

/-- Insertion into an ascending list, for the sort_index model. -/
def insert_sorted (x : Nat) : List Nat → List Nat
  | [] => [x]
  | y :: ys => if x ≤ y then x :: y :: ys else y :: insert_sorted x ys

/-- Ascending insertion sort, for the sort_index model. -/
def sort_asc (l : List Nat) : List Nat := l.foldr insert_sorted []

/-- pandas value_counts().sort_index(): the distinct values present in the
data, in ascending order, each with its count. -/
def value_counts_sorted (l : List Nat) : List (Nat × Nat) :=
  (sort_asc l.dedup).map (fun h => (h, l.countP (fun x => x == h)))

/-- main.py lines 131-133: hour_counts = value_counts().sort_index(), then
the index is replaced by the 24 fixed labels; pandas raises a length
mismatch when the number of index entries differs from 24, which happens
exactly when some hour value is absent from the data (in particular on an
empty collection, where value_counts is empty). -/
def hour_chart (data : List MIncident) : Except String (List (String × Nat)) :=
  let counts := value_counts_sorted (data.map MIncident.hour)
  if counts.length = 24 then
    Except.ok (hour_labels.zip (counts.map Prod.snd))
  else
    Except.error "Length mismatch"

/-- The boundary collection of hotspots.py load_chicago_neighborhoods. -/
structure Geo where
  polys : List Rect
deriving DecidableEq, Repr

/-- A raw row as selected by hotspots.py load_crime_data before the WHERE
clause: coordinates may be NULL. -/
structure CrimeRowH where
  Latitude : Option ℚ
  Longitude : Option ℚ
  Date : DateT
  Year : Int
  CaseNumber : String
deriving DecidableEq, Repr

/-- A record of the GeoDataFrame built by hotspots.py load_crime_data, with
the point geometry of line 38 attached. -/
structure CrimeH where
  Latitude : ℚ
  Longitude : ℚ
  Date : DateT
  Year : Int
  CaseNumber : String
  geometry : Point
deriving DecidableEq, Repr

/-- The WHERE clause of hotspots.py lines 31-32. -/
def coords_not_null_h (r : CrimeRowH) : Bool :=
  r.Latitude.isSome && r.Longitude.isSome

/-- hotspots.py line 38: geometry = Point(Longitude, Latitude). -/
def derive_crime_row (r : CrimeRowH) : CrimeH :=
  { Latitude := r.Latitude.getD 0
    Longitude := r.Longitude.getD 0
    Date := r.Date
    Year := r.Year
    CaseNumber := r.CaseNumber
    geometry := { x := r.Longitude.getD 0, y := r.Latitude.getD 0 } }

/-- The row transformation inside hotspots.py load_crime_data: the SQL
filter followed by geometry construction. -/
def load_crime_data_rows (rows : List CrimeRowH) : List CrimeH :=
  (rows.filter coords_not_null_h).map derive_crime_row

/-- hotspots.py lines 12-23: a single GET of the boundary GeoJSON, modelled
as reading response 0 of a response stream; an exception is caught and
converted into a None result plus a printed error line. -/
def load_chicago_neighborhoods (fetch : Nat → Except String Geo) : Option Geo × List String :=
  match fetch 0 with
  | Except.ok g => (some g, [])
  | Except.error e => (none, ["Error loading neighborhood data: " ++ e])

/-- hotspots.py lines 25-43: the database read wrapped in try/except; an
exception is caught and converted into a None result plus a printed error
line. -/
def load_crime_data (db : Except String (List CrimeRowH)) : Option (List CrimeH) × List String :=
  match db with
  | Except.ok rows => (some (load_crime_data_rows rows), [])
  | Except.error e => (none, ["Error loading crime data: " ++ e])

/-- The document written by hotspots.py create_chloropleth_map: the count
and density columns and the heatmap data of line 135 ([Latitude, Longitude]
pairs). -/
structure ChoroDoc where
  counts : List Nat
  densities : List ℚ
  heat : List (ℚ × ℚ)
deriving DecidableEq, Repr

/-- hotspots.py lines 45-144: run both loaders; if either returned None,
print the error line and return before any rendering, so that m.save (the
sole file write, the final step at line 143) never runs; otherwise compute
the columns and write the document. The result pairs the printed log with
the optionally written file. -/
def create_chloropleth_map (fetch : Nat → Except String Geo)
    (db : Except String (List CrimeRowH)) : List String × Option ChoroDoc :=
  let nb := load_chicago_neighborhoods fetch
  let cd := load_crime_data db
  match nb.1, cd.1 with
  | some n, some c =>
      (nb.2 ++ cd.2,
       some { counts := crime_counts n.polys (c.map CrimeH.geometry)
              densities := crime_densities n.polys (c.map CrimeH.geometry)
              heat := c.map (fun r => (r.Latitude, r.Longitude)) })
  | _, _ => (nb.2 ++ cd.2 ++ ["Error: Could not load required data"], none)

/-- Seven consecutive days starting at a Monday (epoch day 4), one incident
each, run through the main.py loader. -/
def sample_week : List MIncident :=
  (List.range 7).map (fun k => derive_row
    { Latitude := some 41
      Longitude := some (-87)
      Date := { days := 4 + k, hourOfDay := 12, month := 1 }
      Year := 2020
      CaseNumber := "JA100000"
      Description := ""
      LocationDescription := "STREET" })

/-- A raw row with a NULL latitude. -/
def row_bad : RowM :=
  { Latitude := none
    Longitude := some (-87)
    Date := { days := 0, hourOfDay := 0, month := 1 }
    Year := 2020
    CaseNumber := "JA1"
    Description := ""
    LocationDescription := "" }

/-- A raw row with both coordinates present. -/
def row_good : RowM :=
  { Latitude := some 41
    Longitude := some (-87)
    Date := { days := 0, hourOfDay := 0, month := 1 }
    Year := 2020
    CaseNumber := "JA2"
    Description := ""
    LocationDescription := "" }

/-- An incident whose Year lies outside range(2020, 2025). -/
def out_of_range_incident : MIncident :=
  { Latitude := 41
    Longitude := -87
    Date := { days := 0, hourOfDay := 3, month := 7 }
    Year := 2019
    CaseNumber := "JC1"
    Description := ""
    LocationDescription := "STREET"
    day_name := "Thursday"
    hour := 3
    seasonName := "Summer" }

theorem countP_toNat_sum {α : Type} (l : List α) (p : α → Bool) :
    (l.map (fun x => (p x).toNat)).sum = l.countP p := by
  induction l with
  | nil => simp
  | cons a t ih =>
      cases h : p a
      · simp [List.countP_cons, ih, h]
      · simp [List.countP_cons, ih, h]
        omega

theorem countP_eq_sum_ite {α : Type} (l : List α) (p : α → Bool) :
    l.countP p = (l.map (fun x => if p x then 1 else 0)).sum := by
  induction l with
  | nil => simp
  | cons a t ih => simp [List.countP_cons, ih]; omega

theorem sum_map_add_nat {α : Type} (l : List α) (f g : α → ℕ) :
    (l.map (fun x => f x + g x)).sum = (l.map f).sum + (l.map g).sum := by
  induction l with
  | nil => simp
  | cons a t ih => simp [ih]; omega

theorem sum_countP_comm {α β : Type} (w : α → β → Bool) (gs : List β) (ps : List α) :
    (gs.map (fun g => ps.countP (fun p => w p g))).sum
      = (ps.map (fun p => gs.countP (fun g => w p g))).sum := by
  induction gs with
  | nil => simp
  | cons g t ih =>
      have step : (ps.map (fun p => t.countP (fun g2 => w p g2) + if w p g then 1 else 0)).sum
          = (ps.map (fun p => t.countP (fun g2 => w p g2))).sum
            + (ps.map (fun p => if w p g then 1 else 0)).sum :=
        sum_map_add_nat ps _ _
      simp only [List.map_cons, List.sum_cons, List.countP_cons, step, ih,
        ← countP_eq_sum_ite]
      omega

theorem sum_le_length_of_le_one {α : Type} (l : List α) (f : α → ℕ)
    (h : ∀ x ∈ l, f x ≤ 1) :
    (l.map f).sum ≤ l.length ∧
      ((l.map f).sum = l.length ↔ ∀ x ∈ l, f x = 1) := by
  induction l with
  | nil => simp
  | cons a t ih =>
      have ha := h a (List.mem_cons_self a t)
      have ht := ih (fun x hx => h x (List.mem_cons_of_mem a hx))
      simp only [List.map_cons, List.sum_cons, List.length_cons, List.forall_mem_cons]
      constructor
      · omega
      · constructor
        · intro heq
          have h1 : f a = 1 ∧ (t.map f).sum = t.length := by omega
          exact ⟨h1.1, ht.2.mp h1.2⟩
        · intro ⟨h1, h2⟩
          have := ht.2.mpr h2
          omega

/-- C1: for every polygon of the loaded boundary set, the incident count
computed by the aggregation loop of hotspots.py lines 60-63 equals the
exact number of loaded incident points strictly within that polygon, where
Point.within is strict interior containment with boundary points excluded. -/
theorem crime_count_exact (polys : List Rect) (pts : List Point) (i : Nat)
    (h : i < polys.length) (h2 : i < (crime_counts polys pts).length) :
    (crime_counts polys pts).get ⟨i, h2⟩ =
      pts.countP (fun p => p.within (polys.get ⟨i, h⟩)) := by
  simp [crime_counts, crime_count, countP_toNat_sum]

theorem crime_count_exact_witness :
    (crime_counts [⟨0, 2, 0, 2⟩] [⟨1, 1⟩, ⟨5, 5⟩]).get ⟨0, by decide⟩ = 1 := by
  have := crime_count_exact [⟨0, 2, 0, 2⟩] [⟨1, 1⟩, ⟨5, 5⟩] 0 (by decide) (by decide)
  rw [this]
  decide

/-- C2: on months 1 through 12 the season classification of main.py lines
30-33 is total, lands in the four fixed labels, and realizes exactly the
partition Winter = 12, 1, 2; Spring = 3, 4, 5; Summer = 6, 7, 8;
Fall = 9, 10, 11. -/
theorem season_partition (m : Nat) (h1 : 1 ≤ m) (h2 : m ≤ 12) :
    season m ∈ ["Winter", "Spring", "Summer", "Fall"] ∧
    (season m = "Winter" ↔ m = 12 ∨ m = 1 ∨ m = 2) ∧
    (season m = "Spring" ↔ m = 3 ∨ m = 4 ∨ m = 5) ∧
    (season m = "Summer" ↔ m = 6 ∨ m = 7 ∨ m = 8) ∧
    (season m = "Fall" ↔ m = 9 ∨ m = 10 ∨ m = 11) := by
  interval_cases m <;> decide

theorem season_partition_witness :
    (1 ≤ 7 ∧ 7 ≤ 12) ∧ season 7 = "Summer" :=
  ⟨⟨by decide, by decide⟩,
   ((season_partition 7 (by decide) (by decide)).2.2.2.1).mpr (Or.inr (Or.inl rfl))⟩

/-- C3: both loaders drop every row with a NULL latitude or longitude, and
every record of the returned collection stems from a row with both
coordinates present: main.py load_data and hotspots.py load_crime_data
share the WHERE Latitude IS NOT NULL AND Longitude IS NOT NULL clause. -/
theorem loaders_exclude_null_coords (rowsM : List RowM) (rowsH : List CrimeRowH) :
    (∀ r ∈ rowsM, (r.Latitude = none ∨ r.Longitude = none) →
      r ∉ rowsM.filter coords_not_null) ∧
    (∀ i ∈ load_data rowsM, ∃ r ∈ rowsM,
      r.Latitude.isSome ∧ r.Longitude.isSome ∧ i = derive_row r) ∧
    (∀ r ∈ rowsH, (r.Latitude = none ∨ r.Longitude = none) →
      r ∉ rowsH.filter coords_not_null_h) ∧
    (∀ i ∈ load_crime_data_rows rowsH, ∃ r ∈ rowsH,
      r.Latitude.isSome ∧ r.Longitude.isSome ∧ i = derive_crime_row r) := by
  refine ⟨?_, ?_, ?_, ?_⟩
  · intro r _ hnull hmem
    rw [List.mem_filter] at hmem
    rcases hnull with h | h <;> simp [coords_not_null, h] at hmem
  · intro i hi
    simp only [load_data, List.mem_map, List.mem_filter] at hi
    obtain ⟨r, ⟨hr, hc⟩, rfl⟩ := hi
    simp [coords_not_null] at hc
    exact ⟨r, hr, hc.1, hc.2, rfl⟩
  · intro r _ hnull hmem
    rw [List.mem_filter] at hmem
    rcases hnull with h | h <;> simp [coords_not_null_h, h] at hmem
  · intro i hi
    simp only [load_crime_data_rows, List.mem_map, List.mem_filter] at hi
    obtain ⟨r, ⟨hr, hc⟩, rfl⟩ := hi
    simp [coords_not_null_h] at hc
    exact ⟨r, hr, hc.1, hc.2, rfl⟩

theorem loaders_exclude_null_coords_witness :
    row_bad ∈ ([row_bad, row_good] : List RowM) ∧
    row_bad ∉ ([row_bad, row_good] : List RowM).filter coords_not_null :=
  ⟨List.mem_cons_self _ _,
   (loaders_exclude_null_coords [row_bad, row_good] []).1 row_bad
     (List.mem_cons_self _ _) (Or.inl rfl)⟩

/-- C4 counterexample: with two overlapping (here identical) polygons and a
single point inside both, each polygon counts the point, so the sum of
per-polygon counts is 2 while the total incident count is 1; the claimed
bound sum ≤ M fails for this set of polygons and points. -/
theorem sum_counts_le_total_counterexample :
    ¬ ((crime_counts [⟨0, 2, 0, 2⟩, ⟨0, 2, 0, 2⟩] [⟨1, 1⟩]).sum ≤
        ([⟨1, 1⟩] : List Point).length) := by decide

/-- C4 amended: when every point lies strictly within at most one polygon,
the sum of per-polygon counts is at most the total incident count, and
equality holds exactly when every point falls in exactly one polygon (none
unmatched); without that disjointness hypothesis overlapping polygons count
the same point several times. -/
theorem sum_counts_le_total (polys : List Rect) (pts : List Point)
    (h : ∀ p ∈ pts, polys.countP (fun g => p.within g) ≤ 1) :
    (crime_counts polys pts).sum ≤ pts.length ∧
      ((crime_counts polys pts).sum = pts.length ↔
        ∀ p ∈ pts, polys.countP (fun g => p.within g) = 1) := by
  have hswap : (crime_counts polys pts).sum
      = (pts.map (fun p => polys.countP (fun g => p.within g))).sum := by
    have := sum_countP_comm Point.within polys pts
    simpa [crime_counts, crime_count, countP_toNat_sum] using this
  rw [hswap]
  exact sum_le_length_of_le_one pts _ h

theorem sum_counts_le_total_witness :
    (∀ p ∈ ([⟨1, 1⟩, ⟨10, 10⟩] : List Point),
        (([⟨0, 2, 0, 2⟩, ⟨4, 6, 0, 2⟩] : List Rect)).countP (fun g => p.within g) ≤ 1) ∧
    (crime_counts [⟨0, 2, 0, 2⟩, ⟨4, 6, 0, 2⟩] [⟨1, 1⟩, ⟨10, 10⟩]).sum ≤ 2 :=
  ⟨by decide,
   (sum_counts_le_total [⟨0, 2, 0, 2⟩, ⟨4, 6, 0, 2⟩] [⟨1, 1⟩, ⟨10, 10⟩] (by decide)).1⟩

/-- C5: for every polygon, the density column of hotspots.py line 66 equals
the crime count divided by the polygon area times the fixed constant 1e7;
the statement carries no hypothesis on the area, mirroring the unguarded
division in the source. -/
theorem crime_density_formula (polys : List Rect) (pts : List Point) (i : Nat)
    (h : i < polys.length) (h2 : i < (crime_counts polys pts).length)
    (h3 : i < (crime_densities polys pts).length) :
    (crime_densities polys pts).get ⟨i, h3⟩ =
      ((crime_counts polys pts).get ⟨i, h2⟩ : ℚ) / (polys.get ⟨i, h⟩).area * 10000000 := by
  simp [crime_densities, crime_counts, crime_count]

theorem crime_density_formula_witness :
    (crime_densities [⟨0, 0, 0, 1⟩] [⟨1, 1⟩]).get ⟨0, by decide⟩ = 0 := by
  have := crime_density_formula [⟨0, 0, 0, 1⟩] [⟨1, 1⟩] 0 (by decide) (by decide) (by decide)
  rw [this]
  norm_num [Rect.area]

/-- C6: when the data covers all seven weekdays, the weekday aggregation of
main.py lines 93-95 produces, in fixed Monday-first order, exactly the
count of incidents per day name. -/
theorem weekday_aggregation_exact (data : List MIncident)
    (h : ∀ d ∈ week_order, (data.map MIncident.day_name).contains d) :
    dow_reindex (data.map MIncident.day_name) =
      week_order.map (fun d =>
        (d, some ((data.map MIncident.day_name).countP (fun n => n == d)))) ∧
    (dow_reindex (data.map MIncident.day_name)).map Prod.fst = week_order := by
  constructor
  · refine List.map_congr_left (fun d hd => ?_)
    have hc := h d hd
    simp at hc
    simp [dow_reindex, hc]
  · rfl

theorem weekday_aggregation_exact_witness :
    (∀ d ∈ week_order, (sample_week.map MIncident.day_name).contains d) ∧
    (dow_reindex (sample_week.map MIncident.day_name)).map Prod.fst = week_order :=
  ⟨by decide, (weekday_aggregation_exact sample_week (by decide)).2⟩

/-- C7 counterexample: on the empty incident collection the map is not
layer-free and the chart step does not succeed: create_layers still builds
its year layers, and the hourly chart relabeling fails, refuting the claim
that the renderer yields a base map with no layers and four charts with
zero-valued bars. -/
theorem empty_collection_counterexample :
    ¬ (((create_layers []).1.length = 0 ∧ (create_layers []).2.length = 0) ∧
        (hour_chart []).isOk = true) := by decide

/-- C7 amended: on the empty incident collection, create_layers produces
five cluster layers and five heatmap layers (years 2020 through 2024), all
with empty incident lists, the hourly chart step of main.py line 133 fails
with a pandas length mismatch (an empty value_counts index cannot take 24
labels), and the weekday reindex yields a missing value, not zero, for
every day. -/
theorem empty_collection_layers_and_charts :
    (create_layers []).1.length = 5 ∧ (create_layers []).2.length = 5 ∧
    ((create_layers []).1 ++ (create_layers []).2).all (fun L => L.incidents.isEmpty) = true ∧
    hour_chart [] = Except.error "Length mismatch" ∧
    dow_reindex (([] : List MIncident).map MIncident.day_name) =
      week_order.map (fun d => (d, none)) :=
  ⟨rfl, rfl, rfl, rfl, rfl⟩

/-- C8 counterexample: the loader of main.py has no exception handler, so a
failing data source propagates as an error to the caller instead of
producing an empty or null collection. -/
theorem loader_failure_counterexample :
    load_data_db (Except.error "unreachable") = Except.error "unreachable" ∧
    load_data_db (Except.error "unreachable") ≠ Except.ok [] :=
  ⟨rfl, fun h => Except.noConfusion h⟩

/-- C8 amended: on an unreachable or malformed source, the two hotspots.py
loaders return None together with a single logged error line and consult
only the first fetch response (no retry), while the main.py loader
propagates the failure to its caller unchanged. -/
theorem loader_failure_behavior (e : String) (fetch : Nat → Except String Geo)
    (dbh : Except String (List CrimeRowH)) (dbm : Except String (List RowM))
    (hf : fetch 0 = Except.error e) (hdb : dbh = Except.error e)
    (hdbm : dbm = Except.error e) :
    load_chicago_neighborhoods fetch = (none, ["Error loading neighborhood data: " ++ e]) ∧
    load_crime_data dbh = (none, ["Error loading crime data: " ++ e]) ∧
    load_data_db dbm = Except.error e ∧
    (∀ f2 : Nat → Except String Geo, f2 0 = fetch 0 →
      load_chicago_neighborhoods f2 = load_chicago_neighborhoods fetch) := by
  subst hdb hdbm
  refine ⟨?_, rfl, rfl, ?_⟩
  · simp [load_chicago_neighborhoods, hf]
  · intro f2 h2
    simp [load_chicago_neighborhoods, h2]

theorem loader_failure_behavior_witness :
    ((fun _ => Except.error "unreachable" : Nat → Except String Geo) 0
        = Except.error "unreachable") ∧
    load_chicago_neighborhoods (fun _ => Except.error "unreachable")
      = (none, ["Error loading neighborhood data: " ++ "unreachable"]) :=
  ⟨rfl, (loader_failure_behavior "unreachable" (fun _ => Except.error "unreachable")
    (Except.error "unreachable") (Except.error "unreachable") rfl rfl rfl).1⟩

/-- C9: when the boundary fetch fails, create_chloropleth_map logs the
error line and returns before rendering, so no output document is written;
in the embedding the file write is the single final step of the success
branch, so a run either completes with a full document or yields none. -/
theorem fetch_failure_no_output (fetch : Nat → Except String Geo)
    (db : Except String (List CrimeRowH)) (e : String)
    (h : fetch 0 = Except.error e) :
    (create_chloropleth_map fetch db).2 = none ∧
    "Error: Could not load required data" ∈ (create_chloropleth_map fetch db).1 := by
  cases db <;>
    simp [create_chloropleth_map, load_chicago_neighborhoods, load_crime_data, h]

theorem fetch_failure_no_output_witness :
    (create_chloropleth_map (fun _ => Except.error "network error") (Except.ok [])).2 = none ∧
    "Error: Could not load required data" ∈
      (create_chloropleth_map (fun _ => Except.error "network error") (Except.ok [])).1 :=
  fetch_failure_no_output (fun _ => Except.error "network error") (Except.ok [])
    "network error" rfl

/-- C10: cluster and heatmap layers exist only for years 2020 through 2024,
so an incident whose Year lies outside that range is in no layer of either
kind, while it stays in the loaded collection (the membership hypothesis)
and still contributes to the analytics aggregations, here witnessed by the
seasonal count of its own season being positive. -/
theorem year_filter_layers (data : List MIncident) (i : MIncident) (hmem : i ∈ data)
    (hy : i.Year < 2020 ∨ 2024 < i.Year) :
    (∀ L ∈ (create_layers data).1, i ∉ L.incidents) ∧
    (∀ L ∈ (create_layers data).2, i ∉ L.incidents) ∧
    0 < data.countP (fun j => j.seasonName == i.seasonName) := by
  refine ⟨?_, ?_, ?_⟩
  · intro L hL
    simp [create_layers, years_range] at hL
    obtain ⟨k, hk, rfl⟩ := hL
    simp [List.mem_filter]
    intro _ hEq
    omega
  · intro L hL
    simp [create_layers, years_range] at hL
    obtain ⟨k, hk, rfl⟩ := hL
    simp [List.mem_filter]
    intro _ hEq
    omega
  · exact List.countP_pos_iff.mpr ⟨i, hmem, by simp⟩

theorem year_filter_layers_witness :
    (out_of_range_incident ∈ [out_of_range_incident]) ∧
    (∀ L ∈ (create_layers [out_of_range_incident]).1,
      out_of_range_incident ∉ L.incidents) ∧
    0 < ([out_of_range_incident].countP
      (fun j => j.seasonName == out_of_range_incident.seasonName)) :=
  ⟨List.mem_cons_self _ _,
   (year_filter_layers [out_of_range_incident] out_of_range_incident
     (List.mem_cons_self _ _) (Or.inl (by decide))).1,
   (year_filter_layers [out_of_range_incident] out_of_range_incident
     (List.mem_cons_self _ _) (Or.inl (by decide))).2.2⟩
